import Mathlib

/-!
Shallow embedding of `src/bot.py` (a Telegram zodiac bot): the fixed sign
tables, the combination-number arithmetic, the two scraping functions
(`get_horoscope`, `get_compatibility`) over an abstract HTML/fetch model, and
the conversation handlers registered in `main` as pure functions on a session
record.  Theorems below settle the specification claims against these
definitions.
-/

namespace Goroskopchiki

/-- `PERIODS = ["today", "week", "month"]` from bot.py. -/
def PERIODS : List String := ["today", "week", "month"]

/-- `ZODIAC_SIGNS` from bot.py: ordered association list (Python dicts keep
insertion order), mapping the Russian display label to the English id. -/
def ZODIAC_SIGNS : List (String × String) := [
  ("♈ Овен", "aries"),
  ("♉ Телец", "taurus"),
  ("♊ Близнецы", "gemini"),
  ("♋ Рак", "cancer"),
  ("♌ Лев", "leo"),
  ("♍ Дева", "virgo"),
  ("♎ Весы", "libra"),
  ("♏ Скорпион", "scorpio"),
  ("♐ Стрелец", "sagittarius"),
  ("♑ Козерог", "capricorn"),
  ("♒ Водолей", "aquarius"),
  ("♓ Рыбы", "pisces")]

/-- `ZODIAC_INDEXES` from bot.py: label to ordinal. -/
def ZODIAC_INDEXES : List (String × Nat) := [
  ("♈ Овен", 1),
  ("♉ Телец", 2),
  ("♊ Близнецы", 3),
  ("♋ Рак", 4),
  ("♌ Лев", 5),
  ("♍ Дева", 6),
  ("♎ Весы", 7),
  ("♏ Скорпион", 8),
  ("♐ Стрелец", 9),
  ("♑ Козерог", 10),
  ("♒ Водолей", 11),
  ("♓ Рыбы", 12)]

/-- `ZODIAC_INFO` from bot.py: label to description blob. -/
def ZODIAC_INFO : List (String × String) := [
  ("♈ Овен", "♈ Управитель Марс дает знаку такие черты как резкость, яркость, живость, энергичность и стремительность."),
  ("♉ Телец", "♉ Управитель Венера дарует стабильность, уверенность и материальную гармонию."),
  ("♊ Близнецы", "♊ Управитель Меркурий отвечает за любознательность, общительность, умение налаживать контакты."),
  ("♋ Рак", "♋ Управитель Луна несет душевность, чувственность, внутреннее спокойствие и умение заботиться о других."),
  ("♌ Лев", "♌ Управитель Солнце наделяет энергичностью, страстностью, умением быть в центре внимания, устойчивостью и творческим началом."),
  ("♍ Дева", "♍ Управитель Меркурий дарит внимательность, стремление к идеальности и порядку, аккуратность и перфекционизм."),
  ("♎ Весы", "♎ Управитель Венера отвечает за плавность, мягкость, баланс, красоту и утонченность."),
  ("♏ Скорпион", "♏ Управитель Плутон несет страсть, интуицию, загадочность, умение видеть суть событий."),
  ("♐ Стрелец", "♐ Управитель Юпитер дает человеку сообразительность, широту души, тягу к расширению границ, умение вести за собой."),
  ("♑ Козерог", "♑ Управитель Сатурн привнесет в характер конкретность и дисциплину, умение видеть цель и идти к ней."),
  ("♒ Водолей", "♒ Управитель Уран отвечает за революционность, новые прорывные идеи, предвосхищение будущего и внутреннюю свободу."),
  ("♓ Рыбы", "♓ Управитель Нептун подарит творческую жилку, вдохновение, умение копнуть глубоко и наличие своей философии.")]

/-- Python `d[k]` / `d.get(k)` on an ordered dict, as an `Option`: the value
of the first entry whose key equals `k`. -/
def dictGet {β : Type} (d : List (String × β)) (k : String) : Option β :=
  match d with
  | [] => none
  | (k', v) :: rest => if k' = k then some v else dictGet rest k

/-- Python `k in d`. -/
def dictContains {β : Type} (d : List (String × β)) (k : String) : Bool :=
  (dictGet d k).isSome

/-- The four conversation states `range(4)` of bot.py. -/
def SELECT_SIGN : Int := 0

def SELECT_OPTION : Int := 1

def SELECT_COMPATIBILITY_MALE : Int := 2

def SELECT_COMPATIBILITY_FEMALE : Int := 3

/-- `telegram.ext.ConversationHandler.END`. -/
def CONVERSATION_END : Int := -1

/-- `calculate_combination_number` from bot.py.  The Python function indexes
`ZODIAC_INDEXES` with both labels (raising `KeyError` on an unknown label,
modelled as `none`) and returns `12 * (male_index - 1) + female_index`.
Both stored ordinals are at least 1, so `Nat` subtraction is exact here. -/
def calculate_combination_number (male_sign female_sign : String) : Option Nat :=
  match dictGet ZODIAC_INDEXES male_sign, dictGet ZODIAC_INDEXES female_sign with
  | some male_index, some female_index => some (12 * (male_index - 1) + female_index)
  | _, _ => none

/-- Python exceptions that the scraping code can raise. -/
inductive PyError where
  | keyError
  | attributeError
  | requestException
  deriving DecidableEq, Repr

/-- Abstract model of one `<div>` as BeautifulSoup sees it: whether its class
attribute matches the scraped class string `b6a5d4949c e45a4c1552`, the text
of its first `<h2>` child (if any) and of its first `<p>` child (if any). -/
structure HtmlDiv where
  isTarget : Bool
  h2 : Option String
  p : Option String
  deriving DecidableEq, Repr

/-- Abstract model of a parsed HTML body: its `<div>` elements in document
order. -/
abbrev HtmlDoc := List HtmlDiv

/-- Outcome of one `requests.get` call: either the request raises
(`requests.RequestException`: connection error, timeout, ...) or a response
with a status code and a parsed body comes back. -/
inductive FetchResult where
  | failure
  | response (status_code : Nat) (body : HtmlDoc)
  deriving DecidableEq, Repr

/-- Python `str.strip()`: remove leading and trailing whitespace.  (Defined
structurally over the character list so that concrete instances evaluate.) -/
def pyStrip (s : String) : String :=
  ⟨((s.data.dropWhile Char.isWhitespace).reverse.dropWhile Char.isWhitespace).reverse⟩

/-- `soup.find('div', class_='b6a5d4949c e45a4c1552')`: first matching div in
document order, or `None`. -/
def soupFindDiv (doc : HtmlDoc) : Option HtmlDiv :=
  doc.find? (·.isTarget)

/-- `soup.find_all('div', class_='b6a5d4949c e45a4c1552')`: all matching divs
in document order. -/
def soupFindAllDiv (doc : HtmlDoc) : HtmlDoc :=
  doc.filter (·.isTarget)

/-- `get_horoscope` from bot.py.  `sign` and `period` only parameterize the
request URL; `fetch` is the outcome of the one `requests.get` call.  The
Python body is
`response = requests.get(url)` (an exception propagates),
`horoscope_div = soup.find('div', class_=...)`,
`if horoscope_div: return horoscope_div.find('p').text.strip()`
(`AttributeError` when the div has no `<p>`, since `None.text` is an
attribute access on `None`), else `return "Гороскоп не найден."`.
The status code is never inspected. -/
def get_horoscope (sign period : String) (fetch : FetchResult) : Except PyError String :=
  match sign, period, fetch with
  | _, _, .failure => .error .requestException
  | _, _, .response _ doc =>
    match soupFindDiv doc with
    | some horoscope_div =>
      match horoscope_div.p with
      | some ptext => .ok (pyStrip ptext)
      | none => .error .attributeError
    | none => .ok "Гороскоп не найден."

/-- `get_compatibility` from bot.py.  Computes the combination number
(`KeyError` on an unregistered label), issues one GET (`fetch`), returns the
fixed fallback when `status_code != 200`; otherwise collects, per matching
div, a heading (`"Без заголовка"` by default — computed and discarded) and a
paragraph (`"Информация отсутствует."` by default), appends only the
paragraph, and joins with blank lines; a response with no matching div yields
the final fallback. -/
def get_compatibility (male_sign female_sign : String) (fetch : FetchResult) :
    Except PyError String :=
  match calculate_combination_number male_sign female_sign with
  | none => .error .keyError
  | some _combination_number =>
    match fetch with
    | .failure => .error .requestException
    | .response status_code doc =>
      if status_code != 200 then
        .ok "Не удалось получить данные с сайта."
      else
        let compatibility_divs := soupFindAllDiv doc
        if !compatibility_divs.isEmpty then
          let compatibility_details := compatibility_divs.map (fun div =>
            let title := match div.h2 with
              | some t => pyStrip t
              | none => "Без заголовка"
            let paragraph := match div.p with
              | some q => pyStrip q
              | none => "Информация отсутствует."
            let _ := title
            paragraph)
          .ok (String.intercalate "\n\n" compatibility_details)
        else
          .ok "Информация о совместимости не найдена."

/-- `context.user_data` as the handlers use it: only the keys `"sign"` and
`"male_sign"` are ever read or written, so the dict is modelled by its two
optional fields. -/
structure Session where
  sign : Option String
  male_sign : Option String
  deriving DecidableEq, Repr

/-- One `update.message.reply_text(text, reply_markup=...)` call: the text and
the rows of the `ReplyKeyboardMarkup`, when one is attached. -/
structure Reply where
  text : String
  keyboard : Option (List (List String))
  deriving DecidableEq, Repr

/-- What a handler produces: the session after the handler ran, the replies it
sent in order, and the conversation state it returned. -/
abbrev HandlerResult := Session × List Reply × Int

/-- `[[zodiac] for zodiac in ZODIAC_SIGNS.keys()]`. -/
def signKeyboard : List (List String) :=
  ZODIAC_SIGNS.map (fun p => [p.1])

/-- The six-action menu keyboard built in `select_sign` and
`compatibility_result`. -/
def optionKeyboard : List (List String) := [
  ["🔮 Гороскоп на сегодня", "📅 Гороскоп на неделю", "🌙 Гороскоп на месяц"],
  ["♻️ Сменить знак", "ℹ️ Информация о знаке", "💑 Совместимость"]]

/-- `start` from bot.py: prompts with the full sign keyboard and returns
`SELECT_SIGN`; the session is untouched. -/
def start (s : Session) : HandlerResult :=
  (s, [⟨"🌟 Привет! Выберите ваш знак зодиака:", some signKeyboard⟩], SELECT_SIGN)

/-- `select_sign` from bot.py: an unregistered label re-prompts and stays in
`SELECT_SIGN`; a registered label is stored in `user_data["sign"]` and the
six-action menu is shown. -/
def select_sign (input : String) (s : Session) : HandlerResult :=
  if !dictContains ZODIAC_SIGNS input then
    (s, [⟨"⏳ Пожалуйста, подождите немного перед следующим сообщением.", none⟩], SELECT_SIGN)
  else
    ({ s with sign := some input },
     [⟨"Вы выбрали " ++ input ++ ". Что вас интересует?", some optionKeyboard⟩],
     SELECT_OPTION)

/-- `select_compatibility_male` from bot.py: prompts for the male sign with
the full sign keyboard and returns `SELECT_COMPATIBILITY_MALE`. -/
def select_compatibility_male (s : Session) : HandlerResult :=
  (s, [⟨"Выберите знак мужчины:", some signKeyboard⟩], SELECT_COMPATIBILITY_MALE)

/-- The unguarded subscript `ZODIAC_SIGNS[sign]` of `select_option`, where
`sign = context.user_data.get("sign")` may be `None`: a missing key — and in
particular the key `None` — raises `KeyError`. -/
def zodiacSignsItem (sign : Option String) : Except PyError String :=
  match sign with
  | none => .error .keyError
  | some lbl =>
    match dictGet ZODIAC_SIGNS lbl with
    | some eng => .ok eng
    | none => .error .keyError

/-- `select_option` from bot.py.  `fetch` is the outcome of the single
`requests.get` a horoscope branch performs.  The three horoscope branches
evaluate `ZODIAC_SIGNS[sign]` unguarded: `sign` is
`context.user_data.get("sign")`, so a missing or unregistered stored sign
raises `KeyError` before any fetch.  `"♻️ Сменить знак"` returns
`await start(...)` directly; `"💑 Совместимость"` returns
`await select_compatibility_male(...)`; the info branch uses
`ZODIAC_INFO.get(sign, ...)` and falls through to `return SELECT_OPTION`,
as do the horoscope and unrecognized-input branches. -/
def select_option (input : String) (fetch : FetchResult) (s : Session) :
    Except PyError HandlerResult :=
  let sign := s.sign
  if input == "🔮 Гороскоп на сегодня" then
    (zodiacSignsItem sign).bind (fun eng =>
      (get_horoscope eng "today" fetch).map (fun t =>
        (s, [⟨t, none⟩], SELECT_OPTION)))
  else if input == "📅 Гороскоп на неделю" then
    (zodiacSignsItem sign).bind (fun eng =>
      (get_horoscope eng "week" fetch).map (fun t =>
        (s, [⟨t, none⟩], SELECT_OPTION)))
  else if input == "🌙 Гороскоп на месяц" then
    (zodiacSignsItem sign).bind (fun eng =>
      (get_horoscope eng "month" fetch).map (fun t =>
        (s, [⟨t, none⟩], SELECT_OPTION)))
  else if input == "♻️ Сменить знак" then
    .ok (start s)
  else if input == "ℹ️ Информация о знаке" then
    let info := match sign with
      | none => "Информация о знаке недоступна."
      | some lbl => (dictGet ZODIAC_INFO lbl).getD "Информация о знаке недоступна."
    .ok (s, [⟨info, none⟩], SELECT_OPTION)
  else if input == "💑 Совместимость" then
    .ok (select_compatibility_male s)
  else
    .ok (s, [⟨"🚫 Пожалуйста, выберите опцию из списка.", none⟩], SELECT_OPTION)

/-- `select_compatibility_female` from bot.py — despite its name it is the
handler registered for state `SELECT_COMPATIBILITY_MALE` and reads the male
sign: an unregistered label re-prompts and returns
`SELECT_COMPATIBILITY_MALE`; a registered one is stored in
`user_data["male_sign"]` and the female-sign prompt is shown. -/
def select_compatibility_female (input : String) (s : Session) : HandlerResult :=
  if !dictContains ZODIAC_SIGNS input then
    (s, [⟨"Пожалуйста, выберите знак из предложенного списка.", none⟩],
     SELECT_COMPATIBILITY_MALE)
  else
    ({ s with male_sign := some input },
     [⟨"Вы выбрали " ++ input ++ ". Теперь выберите знак женщины:", some signKeyboard⟩],
     SELECT_COMPATIBILITY_FEMALE)

/-- `compatibility_result` from bot.py — the handler registered for state
`SELECT_COMPATIBILITY_FEMALE`; reads the female sign from the message and the
male sign from `user_data.get("male_sign")`.  An unregistered female label
re-prompts and returns `SELECT_COMPATIBILITY_FEMALE`; otherwise
`get_compatibility(male_sign, female_sign)` runs (a `None` male sign raises
`KeyError` inside it), its text is sent, the six-action menu is re-shown, and
the state returns to `SELECT_OPTION`.  The female sign is never stored. -/
def compatibility_result (input : String) (fetch : FetchResult) (s : Session) :
    Except PyError HandlerResult :=
  let female_sign := input
  if !dictContains ZODIAC_SIGNS female_sign then
    .ok (s, [⟨"Пожалуйста, выберите знак из предложенного списка.", none⟩],
         SELECT_COMPATIBILITY_FEMALE)
  else
    let compat : Except PyError String :=
      match s.male_sign with
      | none => .error .keyError
      | some male_sign => get_compatibility male_sign female_sign fetch
    compat.map (fun compatibility =>
      (s, [⟨compatibility, none⟩, ⟨"Что вас интересует?", some optionKeyboard⟩],
       SELECT_OPTION))

/-- `cancel` from bot.py: farewell, no keyboard, `ConversationHandler.END`. -/
def cancel (s : Session) : HandlerResult :=
  (s, [⟨"👋 До свидания!", none⟩], CONVERSATION_END)

/-- The `states={...}` table of `main` in bot.py: which message handler runs
in each conversation state.  A state outside the table has no registered
handler, so the message is ignored. -/
def handle_message (state : Int) (input : String) (fetch : FetchResult)
    (s : Session) : Except PyError HandlerResult :=
  if state == SELECT_SIGN then .ok (select_sign input s)
  else if state == SELECT_OPTION then select_option input fetch s
  else if state == SELECT_COMPATIBILITY_MALE then .ok (select_compatibility_female input s)
  else if state == SELECT_COMPATIBILITY_FEMALE then compatibility_result input fetch s
  else .ok (s, [], state)

/-- The labels of the three horoscope menu actions in `select_option`. -/
def horoscopeChoices : List String :=
  ["🔮 Гороскоп на сегодня", "📅 Гороскоп на неделю", "🌙 Гороскоп на месяц"]

/-- The per-div paragraph text `get_compatibility` appends: the stripped `<p>`
text, or the placeholder when the div has no `<p>`. -/
def paraOf (d : HtmlDiv) : String :=
  match d.p with
  | some q => pyStrip q
  | none => "Информация отсутствует."

section DictLemmas

variable {β : Type}

theorem dictGet_mem {d : List (String × β)} {k : String} {v : β}
    (h : dictGet d k = some v) : (k, v) ∈ d := by
  induction d with
  | nil => simp [dictGet] at h
  | cons hd tl ih =>
    obtain ⟨k', v'⟩ := hd
    rw [dictGet] at h
    split at h
    · next heq =>
      obtain rfl := Option.some.inj h
      subst heq
      exact List.mem_cons_self _ _
    · exact List.mem_cons_of_mem _ (ih h)

theorem dictGet_isSome_exists {d : List (String × β)} {k : String}
    (h : dictContains d k = true) : ∃ v, dictGet d k = some v ∧ (k, v) ∈ d := by
  rw [dictContains, Option.isSome_iff_exists] at h
  obtain ⟨v, hv⟩ := h
  exact ⟨v, hv, dictGet_mem hv⟩

theorem dictGet_of_mem_nodup {d : List (String × β)} {k : String} {v : β}
    (hnd : (d.map Prod.fst).Nodup) (hmem : (k, v) ∈ d) : dictGet d k = some v := by
  induction d with
  | nil => simp at hmem
  | cons hd tl ih =>
    obtain ⟨k', v'⟩ := hd
    rw [List.map_cons, List.nodup_cons] at hnd
    rw [dictGet]
    rcases List.mem_cons.mp hmem with heq | htl
    · obtain ⟨rfl, rfl⟩ := Prod.mk.injEq .. ▸ heq
      simp
    · have hne : k' ≠ k := by
        intro hkk
        subst hkk
        exact hnd.1 (List.mem_map.mpr ⟨(k', v), htl, rfl⟩)
      rw [if_neg hne]
      exact ih hnd.2 htl

end DictLemmas

/-- The keys of the index table are pairwise distinct. -/
theorem zodiac_indexes_keys_nodup : (ZODIAC_INDEXES.map Prod.fst).Nodup := by
  decide

/-- C1: for every ordered pair of registered sign labels,
`calculate_combination_number` returns `12 * (maleOrdinal - 1) + femaleOrdinal`
with the ordinals taken from `ZODIAC_INDEXES`; in particular the pair
(Aries, Taurus) yields 2 and (Capricorn, Aquarius) yields 119. -/
theorem combination_number_formula :
    (∀ m f mi fi, dictGet ZODIAC_INDEXES m = some mi →
        dictGet ZODIAC_INDEXES f = some fi →
        calculate_combination_number m f = some (12 * (mi - 1) + fi)) ∧
    calculate_combination_number "♈ Овен" "♉ Телец" = some 2 ∧
    calculate_combination_number "♑ Козерог" "♒ Водолей" = some 119 := by
  refine ⟨?_, by decide, by decide⟩
  intro m f mi fi hm hf
  rw [calculate_combination_number, hm, hf]

/-- Witness for C1 at the pair (Aries, Taurus). -/
theorem combination_number_formula_witness :
    calculate_combination_number "♈ Овен" "♉ Телец" = some (12 * (1 - 1) + 2) :=
  combination_number_formula.1 "♈ Овен" "♉ Телец" 1 2 (by decide) (by decide)

theorem ordinal_mem_range : ∀ p ∈ ZODIAC_INDEXES, 1 ≤ p.2 ∧ p.2 ≤ 12 := by
  decide

theorem ordinal_val_inj :
    ∀ p ∈ ZODIAC_INDEXES, ∀ q ∈ ZODIAC_INDEXES, p.2 = q.2 → p.1 = q.1 := by
  decide

theorem ordinal_bounds {l : String} {i : Nat} (h : dictGet ZODIAC_INDEXES l = some i) :
    1 ≤ i ∧ i ≤ 12 :=
  ordinal_mem_range _ (dictGet_mem h)

theorem ordinal_injective {l₁ l₂ : String} {i : Nat}
    (h₁ : dictGet ZODIAC_INDEXES l₁ = some i) (h₂ : dictGet ZODIAC_INDEXES l₂ = some i) :
    l₁ = l₂ :=
  ordinal_val_inj (l₁, i) (dictGet_mem h₁) (l₂, i) (dictGet_mem h₂) rfl

theorem ordinal_exists {i : Nat} (h1 : 1 ≤ i) (h2 : i ≤ 12) :
    ∃ l, dictGet ZODIAC_INDEXES l = some i := by
  interval_cases i
  · exact ⟨"♈ Овен", by decide⟩
  · exact ⟨"♉ Телец", by decide⟩
  · exact ⟨"♊ Близнецы", by decide⟩
  · exact ⟨"♋ Рак", by decide⟩
  · exact ⟨"♌ Лев", by decide⟩
  · exact ⟨"♍ Дева", by decide⟩
  · exact ⟨"♎ Весы", by decide⟩
  · exact ⟨"♏ Скорпион", by decide⟩
  · exact ⟨"♐ Стрелец", by decide⟩
  · exact ⟨"♑ Козерог", by decide⟩
  · exact ⟨"♒ Водолей", by decide⟩
  · exact ⟨"♓ Рыбы", by decide⟩

theorem calc_eq_some {m f : String} {n : Nat}
    (h : calculate_combination_number m f = some n) :
    ∃ mi fi, dictGet ZODIAC_INDEXES m = some mi ∧ dictGet ZODIAC_INDEXES f = some fi ∧
      n = 12 * (mi - 1) + fi := by
  rw [calculate_combination_number] at h
  cases hm : dictGet ZODIAC_INDEXES m with
  | none => rw [hm] at h; exact absurd h (by simp)
  | some mi =>
    cases hf : dictGet ZODIAC_INDEXES f with
    | none => rw [hm, hf] at h; exact absurd h (by simp)
    | some fi =>
      rw [hm, hf] at h
      exact ⟨mi, fi, rfl, rfl, (Option.some.inj h).symm⟩

theorem calc_inj {m₁ f₁ m₂ f₂ : String} {n : Nat}
    (h₁ : calculate_combination_number m₁ f₁ = some n)
    (h₂ : calculate_combination_number m₂ f₂ = some n) : m₁ = m₂ ∧ f₁ = f₂ := by
  obtain ⟨mi₁, fi₁, hm₁, hf₁, he₁⟩ := calc_eq_some h₁
  obtain ⟨mi₂, fi₂, hm₂, hf₂, he₂⟩ := calc_eq_some h₂
  obtain ⟨hmb₁, hmb₁u⟩ := ordinal_bounds hm₁
  obtain ⟨hfb₁, hfb₁u⟩ := ordinal_bounds hf₁
  obtain ⟨hmb₂, hmb₂u⟩ := ordinal_bounds hm₂
  obtain ⟨hfb₂, hfb₂u⟩ := ordinal_bounds hf₂
  have hmi : mi₁ = mi₂ := by omega
  have hfi : fi₁ = fi₂ := by omega
  subst hmi hfi
  exact ⟨ordinal_injective hm₁ hm₂, ordinal_injective hf₁ hf₂⟩

/-- C2: every registered sign's ordinal is unique and in 1..12, and
`calculate_combination_number` is a bijection from the 144 ordered pairs of
registered signs onto the range [1, 144]: it is total with values in [1, 144],
injective over ordered pairs, and every id in [1, 144] comes from exactly one
ordered pair. -/
theorem combination_bijection :
    (∀ l, dictContains ZODIAC_INDEXES l = true →
        ∃ i, dictGet ZODIAC_INDEXES l = some i ∧ 1 ≤ i ∧ i ≤ 12) ∧
    (∀ l₁ l₂ i, dictGet ZODIAC_INDEXES l₁ = some i →
        dictGet ZODIAC_INDEXES l₂ = some i → l₁ = l₂) ∧
    (∀ m f, dictContains ZODIAC_INDEXES m = true → dictContains ZODIAC_INDEXES f = true →
        ∃ n, calculate_combination_number m f = some n ∧ 1 ≤ n ∧ n ≤ 144) ∧
    (∀ m₁ f₁ m₂ f₂ n, calculate_combination_number m₁ f₁ = some n →
        calculate_combination_number m₂ f₂ = some n → m₁ = m₂ ∧ f₁ = f₂) ∧
    (∀ n, 1 ≤ n → n ≤ 144 → ∃ m f, calculate_combination_number m f = some n ∧
        ∀ m' f', calculate_combination_number m' f' = some n → m' = m ∧ f' = f) := by
  refine ⟨?_, ?_, ?_, ?_, ?_⟩
  · intro l hl
    obtain ⟨i, hi, _⟩ := dictGet_isSome_exists hl
    exact ⟨i, hi, ordinal_bounds hi⟩
  · intro l₁ l₂ i h₁ h₂
    exact ordinal_injective h₁ h₂
  · intro m f hm hf
    obtain ⟨mi, hmi, _⟩ := dictGet_isSome_exists hm
    obtain ⟨fi, hfi, _⟩ := dictGet_isSome_exists hf
    obtain ⟨hmb, hmbu⟩ := ordinal_bounds hmi
    obtain ⟨hfb, hfbu⟩ := ordinal_bounds hfi
    refine ⟨12 * (mi - 1) + fi, ?_, by omega, by omega⟩
    rw [calculate_combination_number, hmi, hfi]
  · intro m₁ f₁ m₂ f₂ n h₁ h₂
    exact calc_inj h₁ h₂
  · intro n h1 h144
    obtain ⟨m, hm⟩ := ordinal_exists (i := (n - 1) / 12 + 1) (by omega) (by omega)
    obtain ⟨f, hf⟩ := ordinal_exists (i := (n - 1) % 12 + 1) (by omega) (by omega)
    have hcalc : calculate_combination_number m f
        = some (12 * ((n - 1) / 12 + 1 - 1) + ((n - 1) % 12 + 1)) := by
      rw [calculate_combination_number, hm, hf]
    have hval : 12 * ((n - 1) / 12 + 1 - 1) + ((n - 1) % 12 + 1) = n := by omega
    rw [hval] at hcalc
    exact ⟨m, f, hcalc, fun m' f' h' => calc_inj h' hcalc⟩

/-- Witness for C2: instantiates the bijection components at the pair
(Лев, Дева) and at the id 144. -/
theorem combination_bijection_witness :
    (∃ n, calculate_combination_number "♌ Лев" "♍ Дева" = some n ∧ 1 ≤ n ∧ n ≤ 144) ∧
    (∃ m f, calculate_combination_number m f = some 144 ∧
        ∀ m' f', calculate_combination_number m' f' = some 144 → m' = m ∧ f' = f) :=
  ⟨combination_bijection.2.2.1 "♌ Лев" "♍ Дева" (by decide) (by decide),
   combination_bijection.2.2.2.2 144 (by decide) (by decide)⟩

/-- C3 counterexample: in state `SELECT_COMPATIBILITY_FEMALE` with the valid
stored male sign Овен, the unregistered input is re-prompted but the returned
state is `SELECT_COMPATIBILITY_FEMALE` itself, not `SELECT_COMPATIBILITY_MALE`
as the claim asserts. -/
theorem compat_female_invalid_counterexample :
    handle_message SELECT_COMPATIBILITY_FEMALE "Несуществующий знак" .failure
        ⟨none, some "♈ Овен"⟩
      = .ok (⟨none, some "♈ Овен"⟩,
             [⟨"Пожалуйста, выберите знак из предложенного списка.", none⟩],
             SELECT_COMPATIBILITY_FEMALE) ∧
    SELECT_COMPATIBILITY_FEMALE ≠ SELECT_COMPATIBILITY_MALE :=
  ⟨rfl, by decide⟩

/-- C3 (amended): for every session in state `SELECT_COMPATIBILITY_FEMALE`
with a valid stored male sign, an input that is not a registered sign label
re-prompts and leaves the session in state `SELECT_COMPATIBILITY_FEMALE`
(it does not revert to `SELECT_COMPATIBILITY_MALE`). -/
theorem compat_female_invalid_stays (s : Session) (m input : String) (fetch : FetchResult)
    (_hm : s.male_sign = some m) (_hreg : dictContains ZODIAC_SIGNS m = true)
    (hinput : dictContains ZODIAC_SIGNS input = false) :
    handle_message SELECT_COMPATIBILITY_FEMALE input fetch s
      = .ok (s, [⟨"Пожалуйста, выберите знак из предложенного списка.", none⟩],
             SELECT_COMPATIBILITY_FEMALE) := by
  simp [handle_message, SELECT_SIGN, SELECT_OPTION, SELECT_COMPATIBILITY_MALE,
    SELECT_COMPATIBILITY_FEMALE, compatibility_result, hinput]

/-- Witness for the amended C3 at a concrete session and input. -/
theorem compat_female_invalid_stays_witness :
    handle_message SELECT_COMPATIBILITY_FEMALE "Несуществующий знак" .failure
        ⟨some "♌ Лев", some "♉ Телец"⟩
      = .ok (⟨some "♌ Лев", some "♉ Телец"⟩,
             [⟨"Пожалуйста, выберите знак из предложенного списка.", none⟩],
             SELECT_COMPATIBILITY_FEMALE) :=
  compat_female_invalid_stays ⟨some "♌ Лев", some "♉ Телец"⟩ "♉ Телец"
    "Несуществующий знак" .failure rfl (by decide) (by decide)

/-- C4 counterexample: with the matching container present but its paragraph
absent, `get_horoscope` raises `AttributeError` (`None.text`) instead of
returning the fallback; and a failed HTTP request propagates the exception.
So the claim that all three situations yield "Гороскоп не найден." is false at
these concrete inputs. -/
theorem get_horoscope_fallback_counterexample :
    get_horoscope "aries" "today" (.response 200 [⟨true, none, none⟩])
        = .error .attributeError ∧
    get_horoscope "aries" "today" .failure = .error .requestException ∧
    (Except.error PyError.attributeError : Except PyError String)
        ≠ .ok "Гороскоп не найден." :=
  ⟨rfl, rfl, by simp⟩

/-- C4 (amended): `get_horoscope` returns the stripped text of the first
paragraph of the matching container when both are present, and returns the
fallback "Гороскоп не найден." only when the container is absent; when the
container is present without a paragraph it raises `AttributeError`, and when
the HTTP request fails the exception propagates.  The status code is never
consulted. -/
theorem get_horoscope_cases (sign period : String) (status : Nat) (doc : HtmlDoc) :
    (soupFindDiv doc = none →
        get_horoscope sign period (.response status doc) = .ok "Гороскоп не найден.") ∧
    (∀ d, soupFindDiv doc = some d →
        (∀ t, d.p = some t →
            get_horoscope sign period (.response status doc) = .ok (pyStrip t)) ∧
        (d.p = none →
            get_horoscope sign period (.response status doc) = .error .attributeError)) ∧
    get_horoscope sign period .failure = .error .requestException := by
  refine ⟨?_, ?_, rfl⟩
  · intro h
    rw [get_horoscope, h]
  · intro d hd
    constructor
    · intro t ht
      rw [get_horoscope, hd]
      dsimp only
      rw [ht]
    · intro ht
      rw [get_horoscope, hd]
      dsimp only
      rw [ht]

/-- Witness for the amended C4: a response with no matching container yields
the fallback, and one whose container carries a padded paragraph yields the
stripped text. -/
theorem get_horoscope_cases_witness :
    get_horoscope "aries" "today" (.response 404 [⟨false, none, some "x"⟩])
        = .ok "Гороскоп не найден." ∧
    get_horoscope "taurus" "week" (.response 200 [⟨true, none, some " гороскоп "⟩])
        = .ok (pyStrip " гороскоп ") :=
  ⟨(get_horoscope_cases "aries" "today" 404 [⟨false, none, some "x"⟩]).1 rfl,
   ((get_horoscope_cases "taurus" "week" 200 [⟨true, none, some " гороскоп "⟩]).2.1
      ⟨true, none, some " гороскоп "⟩ rfl).1 " гороскоп " rfl⟩

/-- C5: for every pair of registered signs, when the compatibility HTTP
response has a non-success status, `get_compatibility` returns the fixed
fallback "Не удалось получить данные с сайта." — the same string for every
sign pair (hence every combination id) and every response body, which is
never examined. -/
theorem get_compatibility_non_success (m f : String) (status : Nat) (doc : HtmlDoc)
    (hm : dictContains ZODIAC_INDEXES m = true)
    (hf : dictContains ZODIAC_INDEXES f = true)
    (hstatus : ¬(200 ≤ status ∧ status < 300)) :
    get_compatibility m f (.response status doc)
      = .ok "Не удалось получить данные с сайта." := by
  obtain ⟨mi, hmi, _⟩ := dictGet_isSome_exists hm
  obtain ⟨fi, hfi, _⟩ := dictGet_isSome_exists hf
  have hcalc : calculate_combination_number m f = some (12 * (mi - 1) + fi) := by
    rw [calculate_combination_number, hmi, hfi]
  have hne : (status != 200) = true := by
    simp only [bne_iff_ne, ne_eq]
    omega
  rw [get_compatibility, hcalc]
  dsimp only
  rw [hne]
  rfl

/-- Witness for C5: a 404 response with a non-empty body still yields the
fixed fallback. -/
theorem get_compatibility_non_success_witness :
    get_compatibility "♈ Овен" "♉ Телец" (.response 404 [⟨true, none, some "x"⟩])
      = .ok "Не удалось получить данные с сайта." :=
  get_compatibility_non_success "♈ Овен" "♉ Телец" 404 [⟨true, none, some "x"⟩]
    (by decide) (by decide) (by omega)

theorem get_compatibility_200_eval (m f : String) (doc : HtmlDoc) (mi fi : Nat)
    (hmi : dictGet ZODIAC_INDEXES m = some mi)
    (hfi : dictGet ZODIAC_INDEXES f = some fi) :
    get_compatibility m f (.response 200 doc)
      = if (soupFindAllDiv doc).isEmpty then .ok "Информация о совместимости не найдена."
        else .ok (String.intercalate "\n\n" ((soupFindAllDiv doc).map paraOf)) := by
  have hcalc : calculate_combination_number m f = some (12 * (mi - 1) + fi) := by
    rw [calculate_combination_number, hmi, hfi]
  rw [get_compatibility, hcalc]
  dsimp only
  cases hE : (soupFindAllDiv doc).isEmpty with
  | false =>
    simp only [hE, Bool.not_false, if_true, if_false]
    rfl
  | true => simp [hE]

theorem paraOf_setH2 (d : HtmlDiv) (x : Option String) :
    paraOf { d with h2 := x } = paraOf d := rfl

theorem soupFindAllDiv_mapH2 (g : HtmlDiv → Option String) (doc : HtmlDoc) :
    (soupFindAllDiv (doc.map (fun d => { d with h2 := g d }))).map paraOf
      = (soupFindAllDiv doc).map paraOf ∧
    (soupFindAllDiv (doc.map (fun d => { d with h2 := g d }))).isEmpty
      = (soupFindAllDiv doc).isEmpty := by
  induction doc with
  | nil => exact ⟨rfl, rfl⟩
  | cons hd tl ih =>
    by_cases h : hd.isTarget
    · simp only [soupFindAllDiv, List.map_cons, List.filter_cons] at ih ⊢
      have hp : paraOf { isTarget := true, h2 := g hd, p := hd.p } = paraOf hd := rfl
      simp [h, hp, paraOf_setH2, ih.1, ih.2]
    · simp only [soupFindAllDiv, List.map_cons, List.filter_cons] at ih ⊢
      simp [h, ih.1, ih.2]

/-- C6: on a status-200 compatibility response, `get_compatibility` returns
the stripped paragraph texts of all matching containers joined by a blank
line in document order, substituting "Информация отсутствует." for a
container without a paragraph; the result is unchanged under any rewriting of
the headings (they are computed but never emitted); and with no matching
container it returns "Информация о совместимости не найдена.". -/
theorem get_compatibility_success (m f : String) (doc : HtmlDoc)
    (hm : dictContains ZODIAC_INDEXES m = true)
    (hf : dictContains ZODIAC_INDEXES f = true) :
    (soupFindAllDiv doc ≠ [] →
        get_compatibility m f (.response 200 doc)
          = .ok (String.intercalate "\n\n" ((soupFindAllDiv doc).map paraOf))) ∧
    (∀ g : HtmlDiv → Option String,
        get_compatibility m f (.response 200 (doc.map (fun d => { d with h2 := g d })))
          = get_compatibility m f (.response 200 doc)) ∧
    (soupFindAllDiv doc = [] →
        get_compatibility m f (.response 200 doc)
          = .ok "Информация о совместимости не найдена.") := by
  obtain ⟨mi, hmi, _⟩ := dictGet_isSome_exists hm
  obtain ⟨fi, hfi, _⟩ := dictGet_isSome_exists hf
  refine ⟨?_, ?_, ?_⟩
  · intro hne
    rw [get_compatibility_200_eval m f doc mi fi hmi hfi,
      if_neg (by simpa [List.isEmpty_iff] using hne)]
  · intro g
    rw [get_compatibility_200_eval m f doc mi fi hmi hfi,
      get_compatibility_200_eval m f _ mi fi hmi hfi,
      (soupFindAllDiv_mapH2 g doc).1, (soupFindAllDiv_mapH2 g doc).2]
  · intro heq
    rw [get_compatibility_200_eval m f doc mi fi hmi hfi,
      if_pos (by simpa [List.isEmpty_iff] using heq)]

/-- Witness for C6 on a document with two matching containers (the second
lacking a paragraph), one non-matching container, and headings present. -/
theorem get_compatibility_success_witness :
    get_compatibility "♈ Овен" "♉ Телец"
        (.response 200 [⟨true, some "Заголовок", some " первый абзац "⟩,
                        ⟨false, none, some "мимо"⟩,
                        ⟨true, some "Ещё", none⟩])
      = .ok (String.intercalate "\n\n"
          ((soupFindAllDiv [⟨true, some "Заголовок", some " первый абзац "⟩,
                            ⟨false, none, some "мимо"⟩,
                            ⟨true, some "Ещё", none⟩]).map paraOf)) :=
  (get_compatibility_success "♈ Овен" "♉ Телец"
      [⟨true, some "Заголовок", some " первый абзац "⟩,
       ⟨false, none, some "мимо"⟩,
       ⟨true, some "Ещё", none⟩] (by decide) (by decide)).1 (by decide)

/-- C7: in state `SELECT_SIGN`, an input that is not a registered sign label
re-prompts and returns to `SELECT_SIGN` with the session — including any
previously stored sign — completely unchanged; only a registered label writes
the `"sign"` field (and touches nothing else). -/
theorem select_sign_frame (input : String) (s : Session) :
    (dictContains ZODIAC_SIGNS input = false →
        select_sign input s
          = (s, [⟨"⏳ Пожалуйста, подождите немного перед следующим сообщением.", none⟩],
             SELECT_SIGN)) ∧
    (dictContains ZODIAC_SIGNS input = true →
        select_sign input s
          = ({ s with sign := some input },
             [⟨"Вы выбрали " ++ input ++ ". Что вас интересует?", some optionKeyboard⟩],
             SELECT_OPTION)) := by
  constructor
  · intro h
    simp [select_sign, h]
  · intro h
    simp [select_sign, h]

/-- Witness for C7: an unregistered label leaves a session with a stored sign
untouched, and a registered one writes exactly the `"sign"` field. -/
theorem select_sign_frame_witness :
    select_sign "кот" ⟨some "♌ Лев", some "♉ Телец"⟩
      = (⟨some "♌ Лев", some "♉ Телец"⟩,
         [⟨"⏳ Пожалуйста, подождите немного перед следующим сообщением.", none⟩],
         SELECT_SIGN) ∧
    select_sign "♍ Дева" ⟨some "♌ Лев", some "♉ Телец"⟩
      = (⟨some "♍ Дева", some "♉ Телец"⟩,
         [⟨"Вы выбрали " ++ "♍ Дева" ++ ". Что вас интересует?", some optionKeyboard⟩],
         SELECT_OPTION) :=
  ⟨(select_sign_frame "кот" ⟨some "♌ Лев", some "♉ Телец"⟩).1 (by decide),
   (select_sign_frame "♍ Дева" ⟨some "♌ Лев", some "♉ Телец"⟩).2 (by decide)⟩

/-- C8: in state `SELECT_OPTION`, choosing "♻️ Сменить знак" returns exactly
`await start(update, context)`: the same prompt, the same full-sign keyboard
and the same resulting state `SELECT_SIGN` as the explicit start command, for
every session and every fetch outcome. -/
theorem change_sign_equals_start (fetch : FetchResult) (s : Session) :
    select_option "♻️ Сменить знак" fetch s = .ok (start s) ∧
    start s = (s, [⟨"🌟 Привет! Выберите ваш знак зодиака:", some signKeyboard⟩],
               SELECT_SIGN) :=
  ⟨rfl, rfl⟩

theorem zodiacSignsItem_bind_ok_fst {period : String} {fetch : FetchResult} {s : Session}
    {sign : Option String} {r : HandlerResult}
    (h : (zodiacSignsItem sign).bind (fun eng =>
          (get_horoscope eng period fetch).map (fun t =>
            (s, [⟨t, none⟩], SELECT_OPTION))) = .ok r) :
    r.1 = s ∧ r.2.2 = SELECT_OPTION := by
  cases hz : zodiacSignsItem sign with
  | error e => rw [hz] at h; simp [Except.bind] at h
  | ok eng =>
    rw [hz] at h
    simp only [Except.bind] at h
    cases hg : get_horoscope eng period fetch with
    | error e => rw [hg] at h; simp [Except.map] at h
    | ok t =>
      rw [hg] at h
      simp only [Except.map] at h
      injection h with h'
      rw [← h']
      exact ⟨rfl, rfl⟩

/-- C9: across every handler and every input, the only session fields ever
written are `"sign"` (by `select_sign`, only with a registered label) and
`"male_sign"` (by `select_compatibility_female`, only with a registered
label); `start`, `select_compatibility_male`, `cancel`, `select_option` and
`compatibility_result` return the session unchanged — in particular the
female sign chosen in `compatibility_result` is never stored. -/
theorem session_write_discipline :
    (∀ input s, ((select_sign input s).1.male_sign = s.male_sign) ∧
        ((select_sign input s).1.sign = s.sign ∨
          (dictContains ZODIAC_SIGNS input = true ∧
           (select_sign input s).1.sign = some input))) ∧
    (∀ input s, ((select_compatibility_female input s).1.sign = s.sign) ∧
        ((select_compatibility_female input s).1.male_sign = s.male_sign ∨
          (dictContains ZODIAC_SIGNS input = true ∧
           (select_compatibility_female input s).1.male_sign = some input))) ∧
    (∀ s, (start s).1 = s) ∧
    (∀ s, (select_compatibility_male s).1 = s) ∧
    (∀ s, (cancel s).1 = s) ∧
    (∀ input fetch s r, select_option input fetch s = .ok r → r.1 = s) ∧
    (∀ input fetch s r, compatibility_result input fetch s = .ok r → r.1 = s) := by
  refine ⟨?_, ?_, fun s => rfl, fun s => rfl, fun s => rfl, ?_, ?_⟩
  · intro input s
    cases h : dictContains ZODIAC_SIGNS input with
    | false => exact ⟨by simp [select_sign, h], Or.inl (by simp [select_sign, h])⟩
    | true => exact ⟨by simp [select_sign, h], Or.inr ⟨rfl, by simp [select_sign, h]⟩⟩
  · intro input s
    cases h : dictContains ZODIAC_SIGNS input with
    | false =>
      exact ⟨by simp [select_compatibility_female, h],
             Or.inl (by simp [select_compatibility_female, h])⟩
    | true =>
      exact ⟨by simp [select_compatibility_female, h],
             Or.inr ⟨rfl, by simp [select_compatibility_female, h]⟩⟩
  · intro input fetch s r h
    rw [select_option] at h
    dsimp only at h
    split_ifs at h with h1 h2 h3 h4 h5 h6
    · exact (zodiacSignsItem_bind_ok_fst h).1
    · exact (zodiacSignsItem_bind_ok_fst h).1
    · exact (zodiacSignsItem_bind_ok_fst h).1
    · injection h with h'
      rw [← h']
      rfl
    · injection h with h'
      rw [← h']
    · injection h with h'
      rw [← h']
      rfl
    · injection h with h'
      rw [← h']
  · intro input fetch s r h
    rw [compatibility_result] at h
    dsimp only at h
    split_ifs at h with h1
    · injection h with h'
      rw [← h']
    · cases hm : s.male_sign with
      | none => rw [hm] at h; simp [Except.map] at h
      | some m =>
        rw [hm] at h
        dsimp only at h
        cases hg : get_compatibility m input fetch with
        | error e => rw [hg] at h; simp [Except.map] at h
        | ok t =>
          rw [hg] at h
          simp only [Except.map] at h
          injection h with h'
          rw [← h']

/-- Witness for C9: instantiates the `select_option` frame component at a
concrete run of the unrecognized-input branch. -/
theorem session_write_discipline_witness :
    ((⟨some "♌ Лев", none⟩ : Session),
     [(⟨"🚫 Пожалуйста, выберите опцию из списка.", none⟩ : Reply)], SELECT_OPTION).1
      = (⟨some "♌ Лев", none⟩ : Session) :=
  session_write_discipline.2.2.2.2.2.1 "привет" .failure ⟨some "♌ Лев", none⟩
    (⟨some "♌ Лев", none⟩,
     [⟨"🚫 Пожалуйста, выберите опцию из списка.", none⟩], SELECT_OPTION) rfl

theorem get_horoscope_no_keyError (sign period : String) (fetch : FetchResult) :
    get_horoscope sign period fetch ≠ .error .keyError := by
  cases fetch with
  | failure => simp [get_horoscope]
  | response st doc =>
    rw [get_horoscope]
    cases hd : soupFindDiv doc with
    | none => simp
    | some d =>
      cases hp : d.p with
      | none => simp [hp]
      | some t => simp [hp]

theorem zodiacSignsItem_reg_ok {lbl eng : String}
    (h : dictGet ZODIAC_SIGNS lbl = some eng) :
    zodiacSignsItem (some lbl) = .ok eng := by
  rw [zodiacSignsItem, h]

theorem zodiacSignsItem_unreg_err {lbl : String}
    (h : dictContains ZODIAC_SIGNS lbl = false) :
    zodiacSignsItem (some lbl) = .error .keyError := by
  rw [zodiacSignsItem]
  cases hg : dictGet ZODIAC_SIGNS lbl with
  | none => rfl
  | some eng => rw [dictContains, hg] at h; simp at h

theorem horoscope_branch_no_keyError (eng period : String) (fetch : FetchResult)
    (s : Session) :
    (Except.ok eng).bind (fun e2 =>
        (get_horoscope e2 period fetch).map (fun t2 =>
          (s, [⟨t2, none⟩], SELECT_OPTION)))
      ≠ (.error .keyError : Except PyError HandlerResult) := by
  simp only [Except.bind]
  cases hg : get_horoscope eng period fetch with
  | error e =>
    have hne := get_horoscope_no_keyError eng period fetch
    rw [hg] at hne
    simp only [Except.map]
    intro hcontra
    injection hcontra with he
    exact hne (by rw [he])
  | ok t => simp [Except.map]

theorem horoscope_branch_ok (eng period : String) (fetch : FetchResult) (s : Session)
    (t : String) (hfetch : get_horoscope eng period fetch = .ok t) :
    (Except.ok eng).bind (fun e2 =>
        (get_horoscope e2 period fetch).map (fun t2 =>
          ((s, [⟨t2, none⟩], SELECT_OPTION) : HandlerResult)))
      = .ok (s, [⟨t, none⟩], SELECT_OPTION) := by
  simp only [Except.bind]
  rw [hfetch]
  rfl

/-- C10 counterexample: with the registered stored sign Овен, the "today"
horoscope action does not totally return `SELECT_OPTION` — a failing
`requests.get` makes `select_option` propagate the request exception, and a
200 response whose matching container lacks a paragraph makes it propagate
`AttributeError`; neither run returns at all. -/
theorem horoscope_total_counterexample :
    dictContains ZODIAC_SIGNS "♈ Овен" = true ∧
    select_option "🔮 Гороскоп на сегодня" .failure ⟨some "♈ Овен", none⟩
      = .error .requestException ∧
    select_option "🔮 Гороскоп на сегодня" (.response 200 [⟨true, none, none⟩])
        ⟨some "♈ Овен", none⟩
      = .error .attributeError :=
  ⟨by decide, rfl, rfl⟩

/-- C10 (amended): the horoscope branches of `select_option` subscript
`ZODIAC_SIGNS` with the stored sign without a guard.  With a registered
stored sign the lookup succeeds and the branch never raises `KeyError`: it
returns `SELECT_OPTION` whenever the fetch delivers a horoscope text, and
when `get_horoscope` raises (failed request, paragraph-less container) that
exception — never `KeyError` — propagates; with no stored sign, or an
unregistered one, a horoscope action raises `KeyError` instead of producing
a fallback message. -/
theorem horoscope_lookup_safety (s : Session) (lbl choice : String)
    (hsign : s.sign = some lbl) (hreg : dictContains ZODIAC_SIGNS lbl = true)
    (hchoice : choice ∈ horoscopeChoices) :
    (dictGet ZODIAC_SIGNS lbl).isSome = true ∧
    (∀ fetch, select_option choice fetch s ≠ .error .keyError) ∧
    (∀ fetch t, (∀ e p, get_horoscope e p fetch = .ok t) →
        select_option choice fetch s = .ok (s, [⟨t, none⟩], SELECT_OPTION)) ∧
    select_option choice .failure s = .error .requestException ∧
    (∀ (s2 : Session) fetch, s2.sign = none →
        select_option choice fetch s2 = .error .keyError) ∧
    (∀ (s2 : Session) (l2 : String) fetch, s2.sign = some l2 →
        dictContains ZODIAC_SIGNS l2 = false →
        select_option choice fetch s2 = .error .keyError) := by
  have hcases : choice = "🔮 Гороскоп на сегодня" ∨ choice = "📅 Гороскоп на неделю" ∨
      choice = "🌙 Гороскоп на месяц" := by
    simpa [horoscopeChoices] using hchoice
  obtain ⟨eng, heng⟩ := Option.isSome_iff_exists.mp hreg
  have hz : zodiacSignsItem s.sign = .ok eng := by
    rw [hsign]
    exact zodiacSignsItem_reg_ok heng
  refine ⟨hreg, ?_, ?_, ?_, ?_, ?_⟩
  · intro fetch
    rcases hcases with rfl | rfl | rfl
    · show (zodiacSignsItem s.sign).bind _ ≠ _
      rw [hz]
      exact horoscope_branch_no_keyError eng "today" fetch s
    · show (zodiacSignsItem s.sign).bind _ ≠ _
      rw [hz]
      exact horoscope_branch_no_keyError eng "week" fetch s
    · show (zodiacSignsItem s.sign).bind _ ≠ _
      rw [hz]
      exact horoscope_branch_no_keyError eng "month" fetch s
  · intro fetch t hfetch
    rcases hcases with rfl | rfl | rfl
    · show (zodiacSignsItem s.sign).bind _ = _
      rw [hz]
      exact horoscope_branch_ok eng "today" fetch s t (hfetch eng "today")
    · show (zodiacSignsItem s.sign).bind _ = _
      rw [hz]
      exact horoscope_branch_ok eng "week" fetch s t (hfetch eng "week")
    · show (zodiacSignsItem s.sign).bind _ = _
      rw [hz]
      exact horoscope_branch_ok eng "month" fetch s t (hfetch eng "month")
  · rcases hcases with rfl | rfl | rfl
    · show (zodiacSignsItem s.sign).bind _ = _
      rw [hz]
      rfl
    · show (zodiacSignsItem s.sign).bind _ = _
      rw [hz]
      rfl
    · show (zodiacSignsItem s.sign).bind _ = _
      rw [hz]
      rfl
  · intro s2 fetch hnone
    have hz2 : zodiacSignsItem s2.sign = .error .keyError := by rw [hnone]; rfl
    rcases hcases with rfl | rfl | rfl
    · show (zodiacSignsItem s2.sign).bind _ = _
      rw [hz2]
      rfl
    · show (zodiacSignsItem s2.sign).bind _ = _
      rw [hz2]
      rfl
    · show (zodiacSignsItem s2.sign).bind _ = _
      rw [hz2]
      rfl
  · intro s2 l2 fetch hsome hunreg
    have hz2 : zodiacSignsItem s2.sign = .error .keyError := by
      rw [hsome]
      exact zodiacSignsItem_unreg_err hunreg
    rcases hcases with rfl | rfl | rfl
    · show (zodiacSignsItem s2.sign).bind _ = _
      rw [hz2]
      rfl
    · show (zodiacSignsItem s2.sign).bind _ = _
      rw [hz2]
      rfl
    · show (zodiacSignsItem s2.sign).bind _ = _
      rw [hz2]
      rfl

/-- Witness for the amended C10: a session with the stored sign Овен runs
the "today" branch to completion on a well-formed response, propagates the
request exception on a failed fetch, and a session with no stored sign
raises `KeyError` on the same action. -/
theorem horoscope_lookup_safety_witness :
    select_option "🔮 Гороскоп на сегодня"
        (.response 200 [⟨true, none, some "хороший день"⟩]) ⟨some "♈ Овен", none⟩
      = .ok (⟨some "♈ Овен", none⟩, [⟨"хороший день", none⟩], SELECT_OPTION) ∧
    select_option "🔮 Гороскоп на сегодня" .failure ⟨some "♉ Телец", none⟩
      = .error .requestException ∧
    select_option "🔮 Гороскоп на сегодня"
        (.response 200 [⟨true, none, some "хороший день"⟩]) ⟨none, none⟩
      = .error .keyError :=
  ⟨(horoscope_lookup_safety ⟨some "♈ Овен", none⟩ "♈ Овен" "🔮 Гороскоп на сегодня"
      rfl (by decide) (by decide)).2.2.1
      (.response 200 [⟨true, none, some "хороший день"⟩]) "хороший день"
      (fun e p => rfl),
   (horoscope_lookup_safety ⟨some "♉ Телец", none⟩ "♉ Телец" "🔮 Гороскоп на сегодня"
      rfl (by decide) (by decide)).2.2.2.1,
   (horoscope_lookup_safety ⟨some "♈ Овен", none⟩ "♈ Овен" "🔮 Гороскоп на сегодня"
      rfl (by decide) (by decide)).2.2.2.2.1 ⟨none, none⟩
      (.response 200 [⟨true, none, some "хороший день"⟩]) rfl⟩

end Goroskopchiki
